import Mathlib

/-!
Shallow embedding of the batch materialization scheduler of
`bigwig_loader` (`src/bigwig_loader/dataset.py` and
`src/bigwig_loader/pytorch.py`).

The external collaborators (reference genome, BigWig signal collection,
position sampler, GPU kernels) are out of scope of the core; they are
abstracted as result streams indexed by a global fetch counter that models
the advancing internal state of the position sampler.  Machine integers of
the source are modelled by `Nat` (the relevant values are sizes and counts),
and Python falsiness of `None` and `0` in an `x or default` expression is
modelled explicitly by `pyOr`.
-/

set_option autoImplicit false

namespace BigWigLoader

/-- Python `x or d` on an optional integer argument: both `None` and `0`
are falsy, every other `Nat` is returned unchanged.  Used by
`BigWigDataset.__init__` for `super_batch_size or batch_size` (line 93) and
`batches_per_epoch or ...` (lines 98-103). -/
def pyOr (v : Option Nat) (d : Nat) : Nat :=
  match v with
  | none => d
  | some x => if x = 0 then d else x

/-- Exact ceiling division on naturals; models `math.ceil(a / b)`
(line 105) for nonnegative integer `a` and positive `b`. -/
def ceilDiv (a b : Nat) : Nat := (a + b - 1) / b

/-- Models `(regions_of_interest["end"] - regions_of_interest["start"]).sum()`
(line 100): regions are pairs `(start, end)`. -/
def totalBases (regions : List (Nat × Nat)) : Nat :=
  (regions.map (fun r => r.2 - r.1)).sum

/-- The default `(total number of bases) // sequence_length // batch_size`:
number of batches per epoch (lines 98-103, and lines 253-258 of
`BigWigSuperDataset`). -/
def defaultBatchesPerEpoch (regions : List (Nat × Nat)) (sequenceLength batchSize : Nat) : Nat :=
  totalBases regions / sequenceLength / batchSize

/-- The epoch arithmetic computed once by `BigWigDataset.__init__`
(lines 92-107). -/
structure EpochPlan where
  batchSize : Nat
  superBatchSize : Nat
  batchesPerEpoch : Nat
  superBatchesPerEpoch : Nat
deriving Repr, DecidableEq

/-- Message of the `AttributeError` raised at line 95. -/
def superBatchSizeErrorMsg : String :=
  "super_batch_size can not be smaller than batch_size"

/-- Model of `BigWigDataset.__init__`, lines 92-107: resolve `super_batch_size`
(Python `or`, so an explicit `0` falls back to `batch_size`), raise when the
resolved value is smaller than `batch_size`, resolve `batches_per_epoch`
(Python `or` again), and derive `super_batches_per_epoch` by ceiling
division. -/
def bigWigDatasetInit (regions : List (Nat × Nat)) (sequenceLength batchSize : Nat)
    (superBatchSize batchesPerEpoch : Option Nat) : Except String EpochPlan :=
  let s := pyOr superBatchSize batchSize
  if s < batchSize then
    .error superBatchSizeErrorMsg
  else
    let bpe := pyOr batchesPerEpoch (defaultBatchesPerEpoch regions sequenceLength batchSize)
    .ok { batchSize := batchSize, superBatchSize := s, batchesPerEpoch := bpe,
          superBatchesPerEpoch := ceilDiv (batchSize * bpe) s }

/-- Modelled from the spec: `bigwig_loader.cupy_functions.moving_average`
is imported at line 16 and called at line 353 but its definition is not
under `src/`.  Spec section 4.3: with window `1` it is the identity (no
transformation); for any larger window the smoothing pass is delegated to
the smoothing collaborator, abstracted here as `smooth`. -/
def moving_average {α : Type} (smooth : α → Nat → α) (signal : α) (window : Nat) : α :=
  if window = 1 then signal else smooth signal window

/-- Collaborator parameters of `BigWigSuperDataset`: `batchSize` is the
super-batch size, `batchesPerEpoch` is its own epoch cap, `seqFetch k` is
the encoded-sequence batch returned by the k-th call of
`genome.get_batch()` (line 342), `tgtFetch k` is the signal batch written
by the k-th call of `bigwig_collection.get_batch(...)` (lines 346-352),
and `smooth` is the smoothing collaborator used by `moving_average`
(line 353) for window sizes larger than one. -/
structure SuperConfig (σ τ : Type) where
  batchSize : Nat
  batchesPerEpoch : Nat
  movingAverageWindowSize : Nat
  seqFetch : Nat → List σ
  tgtFetch : Nat → List τ
  smooth : List τ → Nat → List τ

/-- The signal batch after post-processing: `moving_average(target, w)`
applied to the k-th fetched signal batch (line 353). -/
def postTarget {σ τ : Type} (sc : SuperConfig σ τ) (k : Nat) : List τ :=
  moving_average sc.smooth (sc.tgtFetch k) sc.movingAverageWindowSize

/-- Mutable state of `BigWigSuperDataset`: `n` is `_n` (batches emitted
this epoch), `fetches` counts all collaborator fetches ever performed (the
advancing position-sampler state), `allocated` records whether
`_prepared_out` has been allocated (line 324), and `allocs` counts buffer
allocations (line 325 runs only when `_prepared_out is None`). -/
structure SuperState where
  n : Nat
  fetches : Nat
  allocated : Bool
  allocs : Nat
deriving Repr, DecidableEq

/-- Fresh `BigWigSuperDataset` state after `__init__` (line 259:
`self._n = 0`; line 267: `self._prepared_out = None`). -/
def initialSuperState : SuperState :=
  { n := 0, fetches := 0, allocated := false, allocs := 0 }

/-- Model of `BigWigSuperDataset.__iter__` (lines 335-337): reset `_n` only. -/
def superIter (st : SuperState) : SuperState := { st with n := 0 }

/-- Model of `BigWigSuperDataset.__next__` (lines 339-355): while `_n <
batches_per_epoch`, increment `_n`, fetch one super-batch of sequences and
signal from the collaborators (allocating the persistent output buffer on
first use), post-process the signal with `moving_average`, and return the
pair; otherwise raise `StopIteration`, modelled as `none` with the state
unchanged. -/
def superNext {σ τ : Type} (sc : SuperConfig σ τ) (st : SuperState) :
    Option (List σ × List τ) × SuperState :=
  if st.n < sc.batchesPerEpoch then
    (some (sc.seqFetch st.fetches, postTarget sc st.fetches),
     { n := st.n + 1, fetches := st.fetches + 1, allocated := true,
       allocs := if st.allocated then st.allocs else st.allocs + 1 })
  else (none, st)

/-- Parameters of `BigWigDataset`: its own `batch_size` and
`batches_per_epoch`, plus the inner `BigWigSuperDataset` it constructs
(lines 109-128) whose `batch_size` is the super-batch size. -/
structure DatasetConfig (σ τ : Type) where
  batchSize : Nat
  batchesPerEpoch : Nat
  super : SuperConfig σ τ

/-- Mutable state of `BigWigDataset`: `_n`, `_offset`,
`_super_batch_sequences`, `_super_batch_targets` (lines 129-132) and the
inner dataset state. -/
structure DatasetState (σ τ : Type) where
  n : Nat
  offset : Nat
  superBatchSequences : Option (List σ)
  superBatchTargets : Option (List τ)
  superState : SuperState

/-- Fresh `BigWigDataset` state after `__init__` (lines 129-132). -/
def initialDatasetState {σ τ : Type} : DatasetState σ τ :=
  { n := 0, offset := 0, superBatchSequences := none, superBatchTargets := none,
    superState := initialSuperState }

/-- Model of `BigWigDataset.__iter__` (lines 137-141): reset `_n` and `_offset` to
zero and call `iter` on the inner dataset, which resets only its `_n`.
The loaded super-batch buffers and the persistent output storage are left
untouched. -/
def datasetIter {σ τ : Type} (ds : DatasetState σ τ) : DatasetState σ τ :=
  { ds with n := 0, offset := 0, superState := superIter ds.superState }

/-- Model of `BigWigDataset.reset_gpu` (lines 134-135), which delegates to
`BigWigSuperDataset.reset_gpu` (lines 273-274), which releases GPU-side
caches of the external signal collaborator.  No field modelled here is
touched, so on the embedded state it is the identity. -/
def datasetResetGpu {σ τ : Type} (ds : DatasetState σ τ) : DatasetState σ τ := ds

/-- The refill condition of `BigWigDataset.__next__` (lines 146-150):
no super-batch is loaded, or fewer than `batch_size` rows remain after
`_offset` in the current super-batch. -/
def refillCondition {σ τ : Type} (cfg : DatasetConfig σ τ) (ds : DatasetState σ τ) : Bool :=
  ds.superBatchSequences.isNone || ds.superBatchTargets.isNone ||
    decide (cfg.super.batchSize < ds.offset + cfg.batchSize)

/-- Model of `BigWigDataset.__next__` (lines 143-165): if `_n < batches_per_epoch`,
increment `_n`; refill from the inner dataset when `refillCondition` holds
(a `StopIteration` of the inner dataset propagates: `none` with `_n`
already incremented); then yield the slice `[_offset : _offset +
batch_size]` of both buffers and advance `_offset`.   Otherwise raise
`StopIteration` (`none`, state unchanged). -/
def datasetNext {σ τ : Type} (cfg : DatasetConfig σ τ) (ds : DatasetState σ τ) :
    Option (List σ × List τ) × DatasetState σ τ :=
  if ds.n < cfg.batchesPerEpoch then
    if refillCondition cfg ds then
      match superNext cfg.super ds.superState with
      | (none, st) => (none, { ds with n := ds.n + 1, superState := st })
      | (some p, st) =>
          (some (p.1.take cfg.batchSize, p.2.take cfg.batchSize),
           { ds with n := ds.n + 1, offset := cfg.batchSize,
                     superBatchSequences := some p.1, superBatchTargets := some p.2,
                     superState := st })
    else
      (some (((ds.superBatchSequences.getD []).drop ds.offset).take cfg.batchSize,
             ((ds.superBatchTargets.getD []).drop ds.offset).take cfg.batchSize),
       { ds with n := ds.n + 1, offset := ds.offset + cfg.batchSize })
  else (none, ds)

/-- Drive `datasetNext` as a `for` loop does: collect yielded batches until
the first end-of-sequence signal (or until `fuel` runs out), returning the
yielded batches and the final state. -/
def runEpoch {σ τ : Type} (cfg : DatasetConfig σ τ) :
    Nat → DatasetState σ τ → List (List σ × List τ) × DatasetState σ τ
  | 0, ds => ([], ds)
  | fuel + 1, ds =>
      match datasetNext cfg ds with
      | (none, ds2) => ([], ds2)
      | (some b, ds2) =>
          let r := runEpoch cfg fuel ds2
          (b :: r.1, r.2)

/-- One full epoch of iteration started on state `ds`: `__iter__` followed
by `batches_per_epoch + 1` calls of `__next__` (one more than the planned
number of batches, so the terminating end-of-sequence signal is reached
whenever the epoch completes). -/
def epochRunFrom {σ τ : Type} (cfg : DatasetConfig σ τ) (ds : DatasetState σ τ) :
    List (List σ × List τ) × DatasetState σ τ :=
  runEpoch cfg (cfg.batchesPerEpoch + 1) (datasetIter ds)

/-- Wire an `EpochPlan` produced by `bigWigDatasetInit` to the inner
dataset exactly as `BigWigDataset.__init__` does (lines 109-128): the inner
`batch_size` is the super-batch size and the inner `batches_per_epoch` is
`super_batches_per_epoch`. -/
def planConfig {σ τ : Type} (plan : EpochPlan) (seqFetch : Nat → List σ)
    (tgtFetch : Nat → List τ) (movingAverageWindowSize : Nat)
    (smooth : List τ → Nat → List τ) : DatasetConfig σ τ :=
  { batchSize := plan.batchSize, batchesPerEpoch := plan.batchesPerEpoch,
    super := { batchSize := plan.superBatchSize,
               batchesPerEpoch := plan.superBatchesPerEpoch,
               movingAverageWindowSize := movingAverageWindowSize,
               seqFetch := seqFetch, tgtFetch := tgtFetch, smooth := smooth } }

/-- Collaborator contract (spec section 4.2): every fetched super-batch has
exactly `super_batch_size` rows, both in the sequence output and in the
post-processed signal output. -/
def FetchContract {σ τ : Type} (cfg : DatasetConfig σ τ) : Prop :=
  ∀ k, (cfg.super.seqFetch k).length = cfg.super.batchSize ∧
       (postTarget cfg.super k).length = cfg.super.batchSize

/-- The loaded super-batch buffers are consistent: either none is loaded,
or both are loaded with exactly `super_batch_size` rows. -/
def BufOk {σ τ : Type} (cfg : DatasetConfig σ τ) (ds : DatasetState σ τ) : Prop :=
  (ds.superBatchSequences = none ∧ ds.superBatchTargets = none) ∨
  (∃ s t, ds.superBatchSequences = some s ∧ ds.superBatchTargets = some t ∧
          s.length = cfg.super.batchSize ∧ t.length = cfg.super.batchSize)

/-- The `collection` argument of `BigWigSuperDataset.__init__`: a pre-built
`BigWigCollection` handle, a path-like value, or Python `None`. -/
inductive CollectionArg where
  | prebuilt (handle : Nat)
  | pathArg (path : Nat)
  | pyNone
deriving Repr, DecidableEq

/-- Lines 237-244 of `BigWigSuperDataset.__init__`: a `BigWigCollection`
instance is stored in `_bigwig_collection`, anything else (including
`None`) is stored in `_bigwig_path`. -/
def superDatasetCollectionFields : CollectionArg → Option Nat × Option Nat
  | .prebuilt h => (some h, none)
  | .pathArg p => (none, some p)
  | .pyNone => (none, none)

/-- The `collection` handling of `BigWigSuperDataset.__init__` as a
fallible constructor: the body only assigns fields and never raises, so it
always succeeds. -/
def superDatasetInit (arg : CollectionArg) : Except String (Option Nat × Option Nat) :=
  .ok (superDatasetCollectionFields arg)

/-- A resolved signal collection: the pre-built handle, or a collection
constructed from the stored path spec. -/
inductive ResolvedCollection where
  | prebuilt (handle : Nat)
  | builtFromPath (path : Nat)
deriving Repr, DecidableEq

/-- Message of the `RuntimeError` raised at lines 318-320. -/
def collectionErrorMsg : String :=
  "_bigwig_collection and _bigwig_path are bot None. At least one should be set."

/-- The `bigwig_collection` property (lines 297-320): return the pre-built
handle if present, otherwise build a collection from the stored path,
otherwise raise a `RuntimeError` - at first access, not at construction. -/
def bigwig_collection : Option Nat × Option Nat → Except String ResolvedCollection
  | (some c, _) => .ok (.prebuilt c)
  | (none, some p) => .ok (.builtFromPath p)
  | (none, none) => .error collectionErrorMsg

/-- Whether an `Except` result is a success. -/
def exceptIsOk {ε α : Type} : Except ε α → Bool
  | .ok _ => true
  | .error _ => false

/-- Lines 247-250 of `BigWigSuperDataset.__init__`: `if
center_bin_to_predict:` is a Python truthiness test, so both `None` and `0`
fall back to `sequence_length`. -/
def superDatasetCenterBin (centerBinToPredict : Option Nat) (sequenceLength : Nat) : Nat :=
  match centerBinToPredict with
  | none => sequenceLength
  | some c => if c = 0 then sequenceLength else c

/-- Default of the `center_bin_to_predict` parameter of
`PytorchBigWigDataset.__init__` (`src/bigwig_loader/pytorch.py`, line 63):
`Optional[int] = 200`, passed through unchanged to `BigWigDataset`
(line 86). -/
def pytorchCenterBinDefault : Option Nat := some 200

/-- Default of the `center_bin_to_predict` parameter of
`BigWigDataset.__init__` (`dataset.py` line 74) and of
`BigWigSuperDataset.__init__` (line 217): `None`. -/
def datasetCenterBinDefault : Option Nat := none

/-- Lines 344-345 of `BigWigSuperDataset.__next__`: `start = center -
(center_bin_to_predict // 2)`, `end = start + center_bin_to_predict`.  The
scoring window of one sampled position. -/
def scoringWindow (center : Int) (centerBinToPredict : Nat) : Int × Int :=
  let start := center - (centerBinToPredict / 2 : Nat)
  (start, start + centerBinToPredict)

/-- Concrete collaborator stream used for witnesses and counterexamples:
the k-th super-batch consists of `size` rows tagged with the fetch index
`k` and the row index, so distinct fetched rows are distinct values. -/
def tagStream (size : Nat) (k : Nat) : List (Nat × Nat) :=
  (List.range size).map (fun i => (k, i))

/-- The slice of the stream `g` holding batch number `t` of an epoch, when
`m` batches are cut from each fetched super-batch: rows `[(t mod m) * b,
(t mod m) * b + b)` of super-batch `t / m`. -/
def sliceStream {α : Type} (b : Nat) (g : Nat → List α) (m t : Nat) : List α :=
  ((g (t / m)).drop (t % m * b)).take b

/-- The batch that `BigWigDataset` yields as batch number `t` of a fresh
epoch (both components), when `m` batches are cut per super-batch. -/
def expectedBatch {σ τ : Type} (cfg : DatasetConfig σ τ) (t : Nat) : List σ × List τ :=
  (sliceStream cfg.batchSize cfg.super.seqFetch (cfg.super.batchSize / cfg.batchSize) t,
   sliceStream cfg.batchSize (postTarget cfg.super) (cfg.super.batchSize / cfg.batchSize) t)

/-- The list of batches `expectedBatch u, expectedBatch (u+1), ...` of
length `k`. -/
def expectedRun {σ τ : Type} (cfg : DatasetConfig σ τ) : Nat → Nat → List (List σ × List τ)
  | _, 0 => []
  | u, k + 1 => expectedBatch cfg u :: expectedRun cfg (u + 1) k

/-- The iteration state of `BigWigDataset` after yielding `t` batches of a
fresh epoch (fresh: nothing loaded, all counters zero).  After `t = u + 1`
batches the loaded super-batch is number `u / m`, the inner dataset has
fetched `u / m + 1` super-batches, and the offset points past slice
`u mod m`. -/
def stateAfterFresh {σ τ : Type} (cfg : DatasetConfig σ τ) : Nat → DatasetState σ τ
  | 0 => initialDatasetState
  | u + 1 =>
      { n := u + 1,
        offset := (u % (cfg.super.batchSize / cfg.batchSize) + 1) * cfg.batchSize,
        superBatchSequences :=
          some (cfg.super.seqFetch (u / (cfg.super.batchSize / cfg.batchSize))),
        superBatchTargets :=
          some (postTarget cfg.super (u / (cfg.super.batchSize / cfg.batchSize))),
        superState :=
          { n := u / (cfg.super.batchSize / cfg.batchSize) + 1,
            fetches := u / (cfg.super.batchSize / cfg.batchSize) + 1,
            allocated := true, allocs := 1 } }

/-! ### Arithmetic helper lemmas -/

theorem le_ceilDiv_mul (a b : Nat) (hb : 0 < b) : a ≤ ceilDiv a b * b := by
  unfold ceilDiv
  have hdm := Nat.div_add_mod (a + b - 1) b
  have hmod : (a + b - 1) % b < b := Nat.mod_lt _ hb
  have hc : b * ((a + b - 1) / b) = ((a + b - 1) / b) * b := Nat.mul_comm _ _
  omega

theorem ceilDiv_mul_self (q d : Nat) (hd : 0 < d) : ceilDiv (q * d) d = q := by
  unfold ceilDiv
  rcases Nat.eq_zero_or_pos q with hq | hq
  · subst hq
    rw [Nat.zero_mul, Nat.zero_add]
    exact Nat.div_eq_of_lt (by omega)
  · have h1 : q * d + d - 1 = (d - 1) + q * d := by
      have : 1 ≤ q * d := Nat.one_le_iff_ne_zero.mpr (by positivity)
      omega
    rw [h1, Nat.add_mul_div_right _ _ hd, Nat.div_eq_of_lt (by omega), Nat.zero_add]

/-- Key credit bound: when `super_batch_size` is an exact multiple of
`batch_size`, the `super_batches_per_epoch` fetches supply at least
`batches_per_epoch` batches of the outer dataset. -/
theorem bpe_le_ceil_mul (b s bpe : Nat) (hb : 0 < b) (hmod : s % b = 0) (hbs : b ≤ s) :
    bpe ≤ ceilDiv (b * bpe) s * (s / b) := by
  have hs : 0 < s := lt_of_lt_of_le hb hbs
  have h1 : b * bpe ≤ ceilDiv (b * bpe) s * s := le_ceilDiv_mul _ _ hs
  have hdvd : b ∣ s := Nat.dvd_of_mod_eq_zero hmod
  have h2 : s / b * b = s := Nat.div_mul_cancel hdvd
  have h3 : ceilDiv (b * bpe) s * s = (ceilDiv (b * bpe) s * (s / b)) * b := by
    rw [Nat.mul_assoc, h2]
  have h4 : bpe * b ≤ ceilDiv (b * bpe) s * (s / b) * b := by
    calc bpe * b = b * bpe := Nat.mul_comm _ _
    _ ≤ ceilDiv (b * bpe) s * s := h1
    _ = ceilDiv (b * bpe) s * (s / b) * b := h3
  exact Nat.le_of_mul_le_mul_right h4 hb

/-- The refill test of line 149 at offset `o * b`: fewer than `b` rows
remain exactly when `o` has reached the number of full batches per
super-batch. -/
theorem offset_refill_iff (s b o : Nat) (hb : 0 < b) : s < o * b + b ↔ s / b ≤ o := by
  have h1 : o * b + b = (o + 1) * b := by ring
  have h2 := Nat.div_lt_iff_lt_mul (y := o + 1) (x := s) hb
  omega

/-! ### List helper lemmas -/

theorem flatten_chunks {α : Type} (b : Nat) :
    ∀ (m : Nat) (l : List α), m * b ≤ l.length →
      ((List.range m).map (fun i => (l.drop (i * b)).take b)).flatten = l.take (m * b)
  | 0, l, _ => by simp
  | m + 1, l, h => by
    rw [List.range_succ_eq_map, List.map_cons, List.flatten_cons, List.map_map]
    have hfun : ((fun i => (l.drop (i * b)).take b) ∘ Nat.succ)
        = fun i => (((l.drop b).drop (i * b)).take b) := by
      funext i
      simp only [Function.comp_apply, List.drop_drop]
      congr 2
      rw [Nat.succ_eq_add_one]
      ring
    have hsm : (m + 1) * b = b + m * b := by ring
    have hlen : m * b ≤ (l.drop b).length := by
      rw [List.length_drop]
      omega
    rw [hfun, flatten_chunks b m (l.drop b) hlen, Nat.zero_mul, List.drop_zero,
      hsm, List.take_add]

theorem stateAfterFresh_n {σ τ : Type} (cfg : DatasetConfig σ τ) :
    ∀ u, (stateAfterFresh cfg u).n = u
  | 0 => rfl
  | _ + 1 => rfl

/-- One refill step of `datasetNext`, fully evaluated: when the epoch cap
is not reached, the refill condition holds and the inner dataset still has
fetch budget, the next batch is cut from a freshly fetched super-batch. -/
theorem datasetNext_refill {σ τ : Type} (cfg : DatasetConfig σ τ) (ds : DatasetState σ τ)
    (hlt : ds.n < cfg.batchesPerEpoch)
    (hrc : refillCondition cfg ds = true)
    (hsn : ds.superState.n < cfg.super.batchesPerEpoch) :
    datasetNext cfg ds =
      (some ((cfg.super.seqFetch ds.superState.fetches).take cfg.batchSize,
             (postTarget cfg.super ds.superState.fetches).take cfg.batchSize),
       { ds with n := ds.n + 1, offset := cfg.batchSize,
                 superBatchSequences := some (cfg.super.seqFetch ds.superState.fetches),
                 superBatchTargets := some (postTarget cfg.super ds.superState.fetches),
                 superState := { n := ds.superState.n + 1,
                                 fetches := ds.superState.fetches + 1,
                                 allocated := true,
                                 allocs := if ds.superState.allocated then ds.superState.allocs
                                           else ds.superState.allocs + 1 } }) := by
  simp [datasetNext, hlt, hrc, superNext, hsn]

/-- One slicing step of `datasetNext`: when the refill condition fails, the
next batch is the slice `[offset, offset + batch_size)` of the loaded
super-batch. -/
theorem datasetNext_slice {σ τ : Type} (cfg : DatasetConfig σ τ) (ds : DatasetState σ τ)
    (s : List σ) (t : List τ)
    (hlt : ds.n < cfg.batchesPerEpoch)
    (hs : ds.superBatchSequences = some s)
    (ht : ds.superBatchTargets = some t)
    (hrc : refillCondition cfg ds = false) :
    datasetNext cfg ds =
      (some ((s.drop ds.offset).take cfg.batchSize, (t.drop ds.offset).take cfg.batchSize),
       { ds with n := ds.n + 1, offset := ds.offset + cfg.batchSize }) := by
  simp [datasetNext, hlt, hrc, hs, ht]

/-- Exhaustion step: once `_n` has reached `batches_per_epoch`, `__next__`
raises the end-of-sequence signal and leaves the state unchanged. -/
theorem datasetNext_exhausted {σ τ : Type} (cfg : DatasetConfig σ τ) (ds : DatasetState σ τ)
    (hge : cfg.batchesPerEpoch ≤ ds.n) :
    datasetNext cfg ds = (none, ds) := by
  simp [datasetNext, Nat.not_lt.mpr hge]

theorem runEpoch_succ_none {σ τ : Type} (cfg : DatasetConfig σ τ) (fuel : Nat)
    (ds ds2 : DatasetState σ τ) (h : datasetNext cfg ds = (none, ds2)) :
    runEpoch cfg (fuel + 1) ds = ([], ds2) := by
  simp [runEpoch, h]

theorem runEpoch_succ_some {σ τ : Type} (cfg : DatasetConfig σ τ) (fuel : Nat)
    (ds ds2 : DatasetState σ τ) (b : List σ × List τ)
    (h : datasetNext cfg ds = (some b, ds2)) :
    runEpoch cfg (fuel + 1) ds
      = (b :: (runEpoch cfg fuel ds2).1, (runEpoch cfg fuel ds2).2) := by
  simp [runEpoch, h]

/-- Field view of the refill step of `datasetNext`. -/
theorem datasetNext_refill_view {σ τ : Type} (cfg : DatasetConfig σ τ) (ds : DatasetState σ τ)
    (hlt : ds.n < cfg.batchesPerEpoch)
    (hrc : refillCondition cfg ds = true)
    (hsn : ds.superState.n < cfg.super.batchesPerEpoch) :
    (datasetNext cfg ds).1
      = some ((cfg.super.seqFetch ds.superState.fetches).take cfg.batchSize,
              (postTarget cfg.super ds.superState.fetches).take cfg.batchSize) ∧
    (datasetNext cfg ds).2.n = ds.n + 1 ∧
    (datasetNext cfg ds).2.offset = cfg.batchSize ∧
    (datasetNext cfg ds).2.superBatchSequences
      = some (cfg.super.seqFetch ds.superState.fetches) ∧
    (datasetNext cfg ds).2.superBatchTargets
      = some (postTarget cfg.super ds.superState.fetches) ∧
    (datasetNext cfg ds).2.superState.n = ds.superState.n + 1 := by
  rw [datasetNext_refill cfg ds hlt hrc hsn]
  exact ⟨rfl, rfl, rfl, rfl, rfl, rfl⟩

/-- Field view of the slicing step of `datasetNext`. -/
theorem datasetNext_slice_view {σ τ : Type} (cfg : DatasetConfig σ τ) (ds : DatasetState σ τ)
    (s : List σ) (t : List τ)
    (hlt : ds.n < cfg.batchesPerEpoch)
    (hs : ds.superBatchSequences = some s)
    (ht : ds.superBatchTargets = some t)
    (hrc : refillCondition cfg ds = false) :
    (datasetNext cfg ds).1
      = some ((s.drop ds.offset).take cfg.batchSize, (t.drop ds.offset).take cfg.batchSize) ∧
    (datasetNext cfg ds).2.n = ds.n + 1 ∧
    (datasetNext cfg ds).2.offset = ds.offset + cfg.batchSize ∧
    (datasetNext cfg ds).2.superBatchSequences = some s ∧
    (datasetNext cfg ds).2.superBatchTargets = some t ∧
    (datasetNext cfg ds).2.superState = ds.superState := by
  rw [datasetNext_slice cfg ds s t hlt hs ht hrc]
  exact ⟨rfl, rfl, rfl, hs, ht, rfl⟩

theorem runEpoch_succ_view {σ τ : Type} (cfg : DatasetConfig σ τ) (fuel : Nat)
    (ds : DatasetState σ τ) (b : List σ × List τ)
    (h : (datasetNext cfg ds).1 = some b) :
    runEpoch cfg (fuel + 1) ds
      = (b :: (runEpoch cfg fuel (datasetNext cfg ds).2).1,
         (runEpoch cfg fuel (datasetNext cfg ds).2).2) := by
  rcases hx : datasetNext cfg ds with ⟨o, ds2⟩
  rw [hx] at h
  cases h
  simp [runEpoch, hx]

/-- Credit lemma: from any consistent state that still has enough rows in
the loaded super-batch plus enough remaining fetch budget, the run yields
one batch of exactly `batch_size` rows per step until the epoch cap, and
the emitted-batch counter advances accordingly. -/
theorem runEpoch_spec {σ τ : Type} (cfg : DatasetConfig σ τ)
    (hB : 0 < cfg.batchSize) (hcon : FetchContract cfg) :
    ∀ (fuel : Nat) (ds : DatasetState σ τ) (o : Nat),
      ds.offset = o * cfg.batchSize →
      o ≤ cfg.super.batchSize / cfg.batchSize →
      BufOk cfg ds →
      ds.n ≤ cfg.batchesPerEpoch →
      cfg.batchesPerEpoch - ds.n ≤
        (if ds.superBatchSequences.isNone then 0
         else cfg.super.batchSize / cfg.batchSize - o) +
          (cfg.super.batchesPerEpoch - ds.superState.n) *
            (cfg.super.batchSize / cfg.batchSize) →
      (runEpoch cfg fuel ds).1.length = min fuel (cfg.batchesPerEpoch - ds.n) ∧
      (∀ p ∈ (runEpoch cfg fuel ds).1,
          p.1.length = cfg.batchSize ∧ p.2.length = cfg.batchSize) ∧
      (runEpoch cfg fuel ds).2.n = min (ds.n + fuel) cfg.batchesPerEpoch := by
  intro fuel
  induction fuel with
  | zero =>
    intro ds o hoff ho hbuf hn hcred
    refine ⟨by simp [runEpoch], by simp [runEpoch], ?_⟩
    simp only [runEpoch]
    omega
  | succ fuel ih =>
    intro ds o hoff ho hbuf hn hcred
    by_cases hlt : ds.n < cfg.batchesPerEpoch
    · by_cases hrc : refillCondition cfg ds = true
      · -- refill step
        have hcred2 : cfg.batchesPerEpoch - ds.n ≤
            (cfg.super.batchesPerEpoch - ds.superState.n) *
              (cfg.super.batchSize / cfg.batchSize) := by
          rcases hbuf with ⟨hs, _⟩ | ⟨s, t, hs, ht, hsl, htl⟩
          · rw [hs] at hcred
            simpa using hcred
          · simp only [refillCondition, hs, ht, Option.isNone_some, Bool.false_or,
              Bool.or_eq_true, decide_eq_true_eq] at hrc
            rw [hoff] at hrc
            have hmo := (offset_refill_iff cfg.super.batchSize cfg.batchSize o hB).mp hrc
            rw [hs] at hcred
            simp only [Option.isNone_some, Bool.false_eq_true, if_false] at hcred
            omega
        have hm : 0 < cfg.super.batchSize / cfg.batchSize := by
          rcases Nat.eq_zero_or_pos (cfg.super.batchSize / cfg.batchSize) with h | h
          · rw [h, Nat.mul_zero] at hcred2
            omega
          · exact h
        have hsn : ds.superState.n < cfg.super.batchesPerEpoch := by
          rcases Nat.eq_zero_or_pos (cfg.super.batchesPerEpoch - ds.superState.n) with h | h
          · rw [h, Nat.zero_mul] at hcred2
            omega
          · omega
        have hBS : cfg.batchSize ≤ cfg.super.batchSize :=
          (Nat.one_le_div_iff hB).mp hm
        obtain ⟨hfst, h2n, h2off, h2seq, h2tgt, h2sn⟩ :=
          datasetNext_refill_view cfg ds hlt hrc hsn
        have hlen1 : ((cfg.super.seqFetch ds.superState.fetches).take cfg.batchSize).length
            = cfg.batchSize := by
          rw [List.length_take, (hcon ds.superState.fetches).1]
          omega
        have hlen2 : ((postTarget cfg.super ds.superState.fetches).take cfg.batchSize).length
            = cfg.batchSize := by
          rw [List.length_take, (hcon ds.superState.fetches).2]
          omega
        have ihr := ih (datasetNext cfg ds).2 1
          (by rw [h2off, Nat.one_mul])
          (by omega)
          (Or.inr ⟨_, _, h2seq, h2tgt, (hcon ds.superState.fetches).1,
            (hcon ds.superState.fetches).2⟩)
          (by omega)
          (by
            rw [h2seq, h2n, h2sn]
            simp only [Option.isNone_some, Bool.false_eq_true, if_false]
            obtain ⟨k, hk⟩ : ∃ k, cfg.super.batchesPerEpoch - ds.superState.n = k + 1 :=
              ⟨cfg.super.batchesPerEpoch - ds.superState.n - 1, by omega⟩
            have hk2 : cfg.super.batchesPerEpoch - (ds.superState.n + 1) = k := by omega
            have hkm : (k + 1) * (cfg.super.batchSize / cfg.batchSize)
                = k * (cfg.super.batchSize / cfg.batchSize)
                  + cfg.super.batchSize / cfg.batchSize := by ring
            rw [hk, hkm] at hcred2
            rw [hk2]
            omega)
        rw [runEpoch_succ_view cfg fuel ds _ hfst]
        refine ⟨?_, ?_, ?_⟩
        · simp only [List.length_cons, ihr.1, h2n]
          omega
        · intro p hp
          rcases List.mem_cons.mp hp with rfl | hp2
          · exact ⟨hlen1, hlen2⟩
          · exact ihr.2.1 p hp2
        · rw [ihr.2.2, h2n]
          omega
      · -- slice step
        have hrcf : refillCondition cfg ds = false := by
          simp only [Bool.not_eq_true] at hrc
          exact hrc
        rcases hbuf with ⟨hs, _⟩ | ⟨s, t, hs, ht, hsl, htl⟩
        · exfalso
          apply hrc
          simp [refillCondition, hs]
        · have hno : ¬ (cfg.super.batchSize < ds.offset + cfg.batchSize) := by
            intro hcontra
            apply hrc
            simp [refillCondition, hcontra]
          have hom : o < cfg.super.batchSize / cfg.batchSize := by
            rw [hoff] at hno
            have := offset_refill_iff cfg.super.batchSize cfg.batchSize o hB
            omega
          have hrow : (o + 1) * cfg.batchSize ≤ cfg.super.batchSize := by
            calc (o + 1) * cfg.batchSize
                ≤ cfg.super.batchSize / cfg.batchSize * cfg.batchSize :=
                  Nat.mul_le_mul_right _ (by omega)
            _ ≤ cfg.super.batchSize := Nat.div_mul_le_self _ _
          have hsucc : (o + 1) * cfg.batchSize = o * cfg.batchSize + cfg.batchSize := by
            ring
          obtain ⟨hfst, h2n, h2off, h2seq, h2tgt, h2st⟩ :=
            datasetNext_slice_view cfg ds s t hlt hs ht hrcf
          have hlen1 : ((s.drop ds.offset).take cfg.batchSize).length = cfg.batchSize := by
            rw [List.length_take, List.length_drop, hsl, hoff]
            omega
          have hlen2 : ((t.drop ds.offset).take cfg.batchSize).length = cfg.batchSize := by
            rw [List.length_take, List.length_drop, htl, hoff]
            omega
          have ihr := ih (datasetNext cfg ds).2 (o + 1)
            (by rw [h2off, hoff, hsucc])
            (by omega)
            (Or.inr ⟨s, t, h2seq, h2tgt, hsl, htl⟩)
            (by omega)
            (by
              rw [h2seq, h2n, h2st]
              rw [hs] at hcred
              simp only [Option.isNone_some, Bool.false_eq_true, if_false] at hcred ⊢
              omega)
          rw [runEpoch_succ_view cfg fuel ds _ hfst]
          refine ⟨?_, ?_, ?_⟩
          · simp only [List.length_cons, ihr.1, h2n]
            omega
          · intro p hp
            rcases List.mem_cons.mp hp with rfl | hp2
            · exact ⟨hlen1, hlen2⟩
            · exact ihr.2.1 p hp2
          · rw [ihr.2.2, h2n]
            omega
    · -- exhausted
      have hnext := datasetNext_exhausted cfg ds (by omega)
      rw [runEpoch_succ_none cfg fuel ds ds hnext]
      refine ⟨by simp; omega, by simp, by simp; omega⟩

/-- Step lemma of a fresh epoch: from the state reached after `u` batches
of a fresh epoch, `__next__` yields exactly slice `u mod m` of super-batch
`u / m` (with `m` the number of batches cut per super-batch) and moves to
the state after `u + 1` batches, provided the inner fetch budget is not
exhausted. -/
theorem datasetNext_stateAfterFresh {σ τ : Type} (cfg : DatasetConfig σ τ)
    (hB : 0 < cfg.batchSize) (hBS : cfg.batchSize ≤ cfg.super.batchSize)
    (hbud : ∀ a, a * (cfg.super.batchSize / cfg.batchSize) < cfg.batchesPerEpoch →
      a < cfg.super.batchesPerEpoch)
    (u : Nat) (hu : u < cfg.batchesPerEpoch) :
    datasetNext cfg (stateAfterFresh cfg u)
      = (some (expectedBatch cfg u), stateAfterFresh cfg (u + 1)) := by
  have hm : 0 < cfg.super.batchSize / cfg.batchSize := (Nat.one_le_div_iff hB).mpr hBS
  rcases u with _ | t
  · -- first batch of the epoch: nothing loaded, refill
    have hrc : refillCondition cfg (stateAfterFresh cfg 0) = true := by
      simp [refillCondition, stateAfterFresh, initialDatasetState]
    have hsn : (stateAfterFresh cfg 0).superState.n < cfg.super.batchesPerEpoch := by
      have := hbud 0 (by simpa using hu)
      simpa [stateAfterFresh, initialDatasetState, initialSuperState] using this
    have hlt : (stateAfterFresh cfg 0).n < cfg.batchesPerEpoch := by
      simpa [stateAfterFresh, initialDatasetState] using hu
    rw [datasetNext_refill cfg _ hlt hrc hsn]
    simp [stateAfterFresh, initialDatasetState, initialSuperState, expectedBatch,
      sliceStream, Nat.zero_div, Nat.zero_mod]
  · -- later batch: the state after t + 1 batches is loaded with super-batch t / m
    have hqr := Nat.div_add_mod t (cfg.super.batchSize / cfg.batchSize)
    have hr : t % (cfg.super.batchSize / cfg.batchSize)
        < cfg.super.batchSize / cfg.batchSize := Nat.mod_lt t hm
    have hlt : (stateAfterFresh cfg (t + 1)).n < cfg.batchesPerEpoch := by
      simpa [stateAfterFresh] using hu
    by_cases hcase : t % (cfg.super.batchSize / cfg.batchSize) + 1
        = cfg.super.batchSize / cfg.batchSize
    · -- the super-batch is used up: refill
      have e1 : t + 1 = cfg.super.batchSize / cfg.batchSize * (t / (cfg.super.batchSize / cfg.batchSize))
          + cfg.super.batchSize / cfg.batchSize := by omega
      have e2 : t + 1 = cfg.super.batchSize / cfg.batchSize
          * (t / (cfg.super.batchSize / cfg.batchSize) + 1) := by
        rw [Nat.mul_add, Nat.mul_one]
        omega
      have ediv : (t + 1) / (cfg.super.batchSize / cfg.batchSize)
          = t / (cfg.super.batchSize / cfg.batchSize) + 1 := by
        rw [e2, Nat.mul_div_cancel_left _ hm]
      have emod : (t + 1) % (cfg.super.batchSize / cfg.batchSize) = 0 := by
        rw [e2, Nat.mul_mod_right]
      have hcond : cfg.super.batchSize
          < (t % (cfg.super.batchSize / cfg.batchSize) + 1) * cfg.batchSize
            + cfg.batchSize := by
        have h5 := (offset_refill_iff cfg.super.batchSize cfg.batchSize
          (cfg.super.batchSize / cfg.batchSize) hB).mpr (Nat.le_refl _)
        rw [hcase]
        exact h5
      have hrc : refillCondition cfg (stateAfterFresh cfg (t + 1)) = true := by
        simp [refillCondition, stateAfterFresh, hcond]
      have e3 : (t / (cfg.super.batchSize / cfg.batchSize) + 1)
          * (cfg.super.batchSize / cfg.batchSize) = t + 1 := by
        rw [Nat.mul_comm, ← e2]
      have hsn : (stateAfterFresh cfg (t + 1)).superState.n < cfg.super.batchesPerEpoch := by
        have := hbud (t / (cfg.super.batchSize / cfg.batchSize) + 1) (by rw [e3]; exact hu)
        simpa [stateAfterFresh] using this
      rw [datasetNext_refill cfg _ hlt hrc hsn]
      simp [stateAfterFresh, expectedBatch, sliceStream, ediv, emod,
        Prod.mk.injEq, Option.some.injEq, DatasetState.mk.injEq, SuperState.mk.injEq]
    · -- rows remain: slice without refill
      have hcase2 : t % (cfg.super.batchSize / cfg.batchSize) + 1
          < cfg.super.batchSize / cfg.batchSize := by omega
      have e1 : t + 1 = cfg.super.batchSize / cfg.batchSize
          * (t / (cfg.super.batchSize / cfg.batchSize))
          + (t % (cfg.super.batchSize / cfg.batchSize) + 1) := by omega
      have ediv : (t + 1) / (cfg.super.batchSize / cfg.batchSize)
          = t / (cfg.super.batchSize / cfg.batchSize) := by
        rw [e1, Nat.mul_add_div hm, Nat.div_eq_of_lt hcase2, Nat.add_zero]
      have emod : (t + 1) % (cfg.super.batchSize / cfg.batchSize)
          = t % (cfg.super.batchSize / cfg.batchSize) + 1 := by
        rw [e1, Nat.mul_add_mod, Nat.mod_eq_of_lt hcase2]
      have h4 : (t % (cfg.super.batchSize / cfg.batchSize) + 1) * cfg.batchSize
          + cfg.batchSize
          = (t % (cfg.super.batchSize / cfg.batchSize) + 2) * cfg.batchSize := by ring
      have h5 : (t % (cfg.super.batchSize / cfg.batchSize) + 2) * cfg.batchSize
          ≤ cfg.super.batchSize / cfg.batchSize * cfg.batchSize :=
        Nat.mul_le_mul_right _ (by omega)
      have h6 : cfg.super.batchSize / cfg.batchSize * cfg.batchSize
          ≤ cfg.super.batchSize := Nat.div_mul_le_self _ _
      have hcond : ¬ (cfg.super.batchSize
          < (t % (cfg.super.batchSize / cfg.batchSize) + 1) * cfg.batchSize
            + cfg.batchSize) := by omega
      have hrc : refillCondition cfg (stateAfterFresh cfg (t + 1)) = false := by
        simp [refillCondition, stateAfterFresh, hcond]
      rw [datasetNext_slice cfg _
        (cfg.super.seqFetch (t / (cfg.super.batchSize / cfg.batchSize)))
        (postTarget cfg.super (t / (cfg.super.batchSize / cfg.batchSize)))
        hlt rfl rfl hrc]
      have hoff2 : (t % (cfg.super.batchSize / cfg.batchSize) + 1) * cfg.batchSize
          + cfg.batchSize
          = (t % (cfg.super.batchSize / cfg.batchSize) + 1 + 1) * cfg.batchSize := by
        ring
      simp [stateAfterFresh, expectedBatch, sliceStream, ediv, emod, hoff2,
        Prod.mk.injEq, Option.some.injEq, DatasetState.mk.injEq, SuperState.mk.injEq]

/-- Content of a fresh epoch: running with any fuel from the state after
`u` batches yields exactly the expected slices, as long as the fetch
budget covers the whole epoch. -/
theorem runEpoch_stateAfterFresh {σ τ : Type} (cfg : DatasetConfig σ τ)
    (hB : 0 < cfg.batchSize) (hBS : cfg.batchSize ≤ cfg.super.batchSize)
    (hbud : ∀ a, a * (cfg.super.batchSize / cfg.batchSize) < cfg.batchesPerEpoch →
      a < cfg.super.batchesPerEpoch) :
    ∀ (fuel u : Nat), u ≤ cfg.batchesPerEpoch →
      (runEpoch cfg fuel (stateAfterFresh cfg u)).1
        = expectedRun cfg u (min fuel (cfg.batchesPerEpoch - u)) := by
  intro fuel
  induction fuel with
  | zero =>
    intro u hu
    simp [runEpoch, expectedRun]
  | succ fuel ih =>
    intro u hu
    by_cases hlt : u < cfg.batchesPerEpoch
    · have hstep := datasetNext_stateAfterFresh cfg hB hBS hbud u hlt
      have hfst : (datasetNext cfg (stateAfterFresh cfg u)).1
          = some (expectedBatch cfg u) := by rw [hstep]
      have hsnd : (datasetNext cfg (stateAfterFresh cfg u)).2
          = stateAfterFresh cfg (u + 1) := by rw [hstep]
      rw [runEpoch_succ_view cfg fuel _ _ hfst, hsnd, ih (u + 1) (by omega)]
      have hmin : min (fuel + 1) (cfg.batchesPerEpoch - u)
          = min fuel (cfg.batchesPerEpoch - (u + 1)) + 1 := by omega
      rw [hmin]
      rfl
    · have hu2 : u = cfg.batchesPerEpoch := by omega
      have hnext := datasetNext_exhausted cfg (stateAfterFresh cfg u)
        (by rw [stateAfterFresh_n]; omega)
      rw [runEpoch_succ_none cfg fuel _ _ hnext]
      simp [hu2, expectedRun]

theorem expectedRun_length {σ τ : Type} (cfg : DatasetConfig σ τ) :
    ∀ u k, (expectedRun cfg u k).length = k
  | _, 0 => rfl
  | u, k + 1 => by
    simp [expectedRun, expectedRun_length cfg (u + 1) k]

theorem expectedRun_append {σ τ : Type} (cfg : DatasetConfig σ τ) :
    ∀ a u b, expectedRun cfg u (a + b) = expectedRun cfg u a ++ expectedRun cfg (u + a) b
  | 0, u, b => by simp [expectedRun]
  | a + 1, u, b => by
    have h1 : a + 1 + b = (a + b) + 1 := by omega
    rw [h1]
    simp only [expectedRun]
    rw [expectedRun_append cfg a (u + 1) b]
    have h2 : u + 1 + a = u + (a + 1) := by omega
    rw [h2]
    simp [List.cons_append]

theorem expectedRun_eq_map {σ τ : Type} (cfg : DatasetConfig σ τ) :
    ∀ k u, expectedRun cfg u k = (List.range k).map (fun i => expectedBatch cfg (u + i))
  | 0, _ => by simp [expectedRun]
  | k + 1, u => by
    rw [List.range_succ_eq_map]
    simp only [expectedRun, List.map_cons, Nat.add_zero, List.map_map]
    rw [expectedRun_eq_map cfg k (u + 1)]
    congr 1
    apply List.map_congr_left
    intro i _
    simp only [Function.comp_apply, Nat.succ_eq_add_one]
    congr 1
    omega

/-- Joining the `m` slices of block `j` recovers the first `m * b` rows of
super-batch `j`. -/
theorem flatten_block {α : Type} (b m j : Nat) (g : Nat → List α) (hm : 0 < m)
    (hlen : m * b ≤ (g j).length) :
    (((List.range m).map (fun i => sliceStream b g m (j * m + i))).flatten)
      = (g j).take (m * b) := by
  have hcong : ∀ i ∈ List.range m,
      sliceStream b g m (j * m + i) = ((g j).drop (i * b)).take b := by
    intro i hi
    have hilt : i < m := List.mem_range.mp hi
    have e1 : j * m + i = m * j + i := by ring
    unfold sliceStream
    rw [e1, Nat.mul_add_div hm, Nat.div_eq_of_lt hilt, Nat.add_zero,
      Nat.mul_add_mod, Nat.mod_eq_of_lt hilt]
  rw [List.map_congr_left hcong, flatten_chunks b m (g j) hlen]

/-- When every super-batch splits exactly (length `m * b`), joining all
slices of `q` full blocks recovers the concatenation of the `q`
super-batches. -/
theorem flatten_slices_range {α : Type} (b m : Nat) (g : Nat → List α) (hm : 0 < m)
    (hlen : ∀ j, (g j).length = m * b) :
    ∀ q, ((List.range (q * m)).map (fun t => sliceStream b g m t)).flatten
        = ((List.range q).map g).flatten
  | 0 => by simp
  | q + 1 => by
    have h1 : (q + 1) * m = q * m + m := by ring
    rw [h1, List.range_add, List.map_append, List.flatten_append,
      flatten_slices_range b m g hm hlen q, List.map_map]
    rw [List.range_succ, List.map_append, List.flatten_append]
    congr 1
    have h2 : ((fun t => sliceStream b g m t) ∘ fun x => q * m + x)
        = fun i => sliceStream b g m (q * m + i) := rfl
    rw [h2, flatten_block b m q g hm (by rw [hlen q])]
    simp [← hlen q]

/-- Field content of a successful `BigWigDataset.__init__`. -/
theorem bigWigDatasetInit_ok {regions : List (Nat × Nat)}
    {sequenceLength batchSize : Nat} {sOpt bpeOpt : Option Nat} {plan : EpochPlan}
    (h : bigWigDatasetInit regions sequenceLength batchSize sOpt bpeOpt = Except.ok plan) :
    plan.batchSize = batchSize ∧
    plan.superBatchSize = pyOr sOpt batchSize ∧
    batchSize ≤ plan.superBatchSize ∧
    plan.batchesPerEpoch
      = pyOr bpeOpt (defaultBatchesPerEpoch regions sequenceLength batchSize) ∧
    plan.superBatchesPerEpoch
      = ceilDiv (batchSize * plan.batchesPerEpoch) plan.superBatchSize := by
  unfold bigWigDatasetInit at h
  dsimp only [] at h
  split at h
  · exact absurd h (by simp)
  · next hge =>
    rw [Except.ok.injEq] at h
    subst h
    refine ⟨rfl, rfl, ?_, rfl, rfl⟩
    show batchSize ≤ pyOr sOpt batchSize
    omega

/-! ### Claim theorems -/

/-- C3 (amended): `batches_per_epoch` equals the caller-supplied explicit
value whenever a NONZERO explicit value is given; an explicit `0` is falsy
in the Python `or` chain of lines 98-103 and falls back - like an omitted
value - to the default `floor(floor(R / L) / B)` with floor division at
each step.  A configuration with `R < L * B` gets the default
`batches_per_epoch = 0`, is accepted without error, and the epoch is
immediately exhausted. -/
theorem C3_batches_per_epoch_resolution :
    (∀ (regions : List (Nat × Nat)) (sequenceLength batchSize : Nat)
        (sOpt : Option Nat) (v : Nat) (plan : EpochPlan), v ≠ 0 →
      bigWigDatasetInit regions sequenceLength batchSize sOpt (some v) = Except.ok plan →
      plan.batchesPerEpoch = v) ∧
    (∀ (regions : List (Nat × Nat)) (sequenceLength batchSize : Nat)
        (sOpt : Option Nat) (plan : EpochPlan),
      bigWigDatasetInit regions sequenceLength batchSize sOpt none = Except.ok plan →
      plan.batchesPerEpoch = totalBases regions / sequenceLength / batchSize) ∧
    (∀ (regions : List (Nat × Nat)) (sequenceLength batchSize : Nat)
        (sOpt : Option Nat) (plan : EpochPlan),
      bigWigDatasetInit regions sequenceLength batchSize sOpt (some 0) = Except.ok plan →
      plan.batchesPerEpoch = totalBases regions / sequenceLength / batchSize) ∧
    (∀ (regions : List (Nat × Nat)) (sequenceLength batchSize : Nat),
      0 < sequenceLength → 0 < batchSize →
      totalBases regions < sequenceLength * batchSize →
      bigWigDatasetInit regions sequenceLength batchSize none none
        = Except.ok ⟨batchSize, batchSize, 0, 0⟩) ∧
    (∀ (σ τ : Type) (cfg : DatasetConfig σ τ) (fuel : Nat) (ds : DatasetState σ τ),
      cfg.batchesPerEpoch = 0 → (runEpoch cfg fuel ds).1 = []) := by
  refine ⟨?_, ?_, ?_, ?_, ?_⟩
  · intro regions L B sOpt v plan hv h
    rw [(bigWigDatasetInit_ok h).2.2.2.1]
    simp [pyOr, hv]
  · intro regions L B sOpt plan h
    rw [(bigWigDatasetInit_ok h).2.2.2.1]
    simp [pyOr, defaultBatchesPerEpoch]
  · intro regions L B sOpt plan h
    rw [(bigWigDatasetInit_ok h).2.2.2.1]
    simp [pyOr, defaultBatchesPerEpoch]
  · intro regions L B hL hB hRB
    have hcomm : L * B = B * L := Nat.mul_comm _ _
    have h1 : totalBases regions / L < B := by
      rw [Nat.div_lt_iff_lt_mul hL]
      omega
    have hdef : defaultBatchesPerEpoch regions L B = 0 := by
      unfold defaultBatchesPerEpoch
      exact Nat.div_eq_of_lt h1
    have hceil : ceilDiv (B * 0) B = 0 := by
      unfold ceilDiv
      rw [Nat.mul_zero, Nat.zero_add]
      exact Nat.div_eq_of_lt (by omega)
    unfold bigWigDatasetInit
    simp only [pyOr]
    rw [if_neg (Nat.lt_irrefl B), hdef, hceil]
  · intro σ τ cfg fuel ds h0
    cases fuel with
    | zero => simp [runEpoch]
    | succ fuel =>
      rw [runEpoch_succ_none cfg fuel ds ds (datasetNext_exhausted cfg ds (by omega))]

theorem C3_batches_per_epoch_resolution_witness :
    (EpochPlan.mk 4 4 7 7).batchesPerEpoch = 7 :=
  C3_batches_per_epoch_resolution.1 [(0, 10000)] 1000 4 none 7 ⟨4, 4, 7, 7⟩
    (by decide) rfl

theorem C3_counterexample :
    bigWigDatasetInit [(0, 10000)] 1000 4 none (some 0) = Except.ok ⟨4, 4, 2, 2⟩ ∧
    (2 : Nat) ≠ 0 :=
  ⟨rfl, by decide⟩

/-- C4 (amended): constructing `BigWigDataset` with a NONZERO
`super_batch_size` smaller than `batch_size` raises the configuration
error of line 95 at construction time (so no batch is ever produced); an
explicit `super_batch_size = 0` is falsy in the Python `or` of line 93 and
is silently replaced by `batch_size`, so no error is raised although
`0 < batch_size`.  On every successful construction,
`super_batches_per_epoch = ceil(batch_size * batches_per_epoch /
super_batch_size)`. -/
theorem C4_super_batch_size_validation :
    (∀ (regions : List (Nat × Nat)) (sequenceLength batchSize s : Nat)
        (bpeOpt : Option Nat), 0 < s → s < batchSize →
      bigWigDatasetInit regions sequenceLength batchSize (some s) bpeOpt
        = Except.error superBatchSizeErrorMsg) ∧
    (∀ (regions : List (Nat × Nat)) (sequenceLength batchSize : Nat)
        (sOpt bpeOpt : Option Nat) (plan : EpochPlan),
      bigWigDatasetInit regions sequenceLength batchSize sOpt bpeOpt = Except.ok plan →
      plan.superBatchesPerEpoch
        = ceilDiv (plan.batchSize * plan.batchesPerEpoch) plan.superBatchSize) := by
  constructor
  · intro regions L B s bpeOpt hs hsB
    have hp : pyOr (some s) B = s := by
      simp only [pyOr]
      rw [if_neg (by omega)]
    unfold bigWigDatasetInit
    rw [hp, if_pos hsB]
  · intro regions L B sOpt bpeOpt plan h
    have hfields := bigWigDatasetInit_ok h
    rw [hfields.1]
    exact hfields.2.2.2.2

theorem C4_super_batch_size_validation_witness :
    bigWigDatasetInit [(0, 0)] 1 3 (some 2) none = Except.error superBatchSizeErrorMsg :=
  C4_super_batch_size_validation.1 [(0, 0)] 1 3 2 none (by decide) (by decide)

theorem C4_counterexample :
    (0 : Nat) < 2 ∧
    bigWigDatasetInit [(0, 0)] 1 2 (some 0) none = Except.ok ⟨2, 2, 0, 0⟩ :=
  ⟨by decide, rfl⟩

/-- C5: applying the post-processing smoothing pass with
`moving_average_window == 1` is the identity on the signal, whatever the
signal value is. -/
theorem C5_moving_average_window_one_identity {α : Type} (smooth : α → Nat → α)
    (signal : α) : moving_average smooth signal 1 = signal := by
  simp [moving_average]

/-- C8 (amended): `BigWigSuperDataset.__init__` never raises for any form
of the `collection` argument - in particular, passing `None` (neither a
pre-built handle nor a path) constructs successfully with both stored
fields `None`.  The configuration error is raised lazily by the
`bigwig_collection` property on its first access (lines 318-320), not at
construction time. -/
theorem C8_collection_error_is_lazy :
    (∀ arg, superDatasetInit arg = Except.ok (superDatasetCollectionFields arg)) ∧
    (superDatasetCollectionFields CollectionArg.pyNone = (none, none)) ∧
    (bigwig_collection (none, none) = Except.error collectionErrorMsg) ∧
    (∀ (h : Nat) (o : Option Nat),
      bigwig_collection (some h, o) = Except.ok (ResolvedCollection.prebuilt h)) ∧
    (∀ p : Nat,
      bigwig_collection (none, some p) = Except.ok (ResolvedCollection.builtFromPath p)) :=
  ⟨fun _ => rfl, rfl, rfl, fun _ _ => rfl, fun _ => rfl⟩

theorem C8_counterexample :
    exceptIsOk (superDatasetInit CollectionArg.pyNone) = true ∧
    exceptIsOk (bigwig_collection (superDatasetCollectionFields CollectionArg.pyNone))
      = false :=
  ⟨rfl, rfl⟩

/-- C9 (amended): `center_bin_to_predict` defaults to `sequence_length`
when not given (or given as falsy `0`) at `BigWigDataset` and
`BigWigSuperDataset`, whose parameter default is `None`; but the public
`PytorchBigWigDataset` constructor defaults the parameter to `200`
(pytorch.py line 63), not to `sequence_length`.  The scoring window of a
position is `[center - C div 2, center - C div 2 + C)`: a window of length
exactly `C` anchored at the sampled position. -/
theorem C9_center_bin_defaults :
    (∀ sequenceLength : Nat,
      superDatasetCenterBin none sequenceLength = sequenceLength) ∧
    (∀ sequenceLength : Nat,
      superDatasetCenterBin datasetCenterBinDefault sequenceLength = sequenceLength) ∧
    (∀ (sequenceLength c : Nat), c ≠ 0 →
      superDatasetCenterBin (some c) sequenceLength = c) ∧
    (∀ sequenceLength : Nat,
      superDatasetCenterBin pytorchCenterBinDefault sequenceLength = 200) ∧
    (∀ (center : Int) (c : Nat),
      scoringWindow center c
        = (center - (c / 2 : Nat), center - (c / 2 : Nat) + c) ∧
      (scoringWindow center c).2 - (scoringWindow center c).1 = c) := by
  refine ⟨fun _ => rfl, fun _ => rfl, ?_, fun _ => rfl, ?_⟩
  · intro L c hc
    simp [superDatasetCenterBin, hc]
  · intro center c
    refine ⟨rfl, ?_⟩
    simp only [scoringWindow]
    omega

theorem C9_center_bin_defaults_witness :
    superDatasetCenterBin (some 300) 1000 = 300 :=
  C9_center_bin_defaults.2.2.1 1000 300 (by decide)

theorem C9_counterexample :
    superDatasetCenterBin pytorchCenterBinDefault 1000 = 200 ∧ (200 : Nat) ≠ 1000 :=
  ⟨rfl, by decide⟩

/-- C10: the inner `BigWigSuperDataset` is capped at
`super_batches_per_epoch = ceil(batch_size * batches_per_epoch /
super_batch_size)` fetches per epoch, after which it signals
end-of-sequence with unchanged state; and `BigWigDataset.__next__`
increments its emitted-batch counter before attempting a refill, so a
refill attempted beyond the cap terminates the outer iteration early via
end-of-sequence (no error), with the counter already incremented and no
further batch produced. -/
theorem C10_super_source_fetch_cap {regions : List (Nat × Nat)}
    {sequenceLength batchSize : Nat} {sOpt bpeOpt : Option Nat} {plan : EpochPlan}
    {σ τ : Type} (seqFetch : Nat → List σ) (tgtFetch : Nat → List τ)
    (movingAverageWindowSize : Nat) (smooth : List τ → Nat → List τ)
    (hinit : bigWigDatasetInit regions sequenceLength batchSize sOpt bpeOpt
      = Except.ok plan) :
    plan.superBatchesPerEpoch
      = ceilDiv (plan.batchSize * plan.batchesPerEpoch) plan.superBatchSize ∧
    (∀ st : SuperState, plan.superBatchesPerEpoch ≤ st.n →
      superNext (planConfig plan seqFetch tgtFetch movingAverageWindowSize smooth).super st
        = (none, st)) ∧
    (∀ ds : DatasetState σ τ, ds.n < plan.batchesPerEpoch →
      refillCondition (planConfig plan seqFetch tgtFetch movingAverageWindowSize smooth) ds
        = true →
      plan.superBatchesPerEpoch ≤ ds.superState.n →
      datasetNext (planConfig plan seqFetch tgtFetch movingAverageWindowSize smooth) ds
        = (none, { ds with n := ds.n + 1 })) := by
  obtain ⟨hb, hsb, hle, hbpe, hcap⟩ := bigWigDatasetInit_ok hinit
  refine ⟨by rw [hb]; exact hcap, ?_, ?_⟩
  · intro st hst
    simp [superNext, planConfig, Nat.not_lt.mpr hst]
  · intro ds hn hrc hcap2
    have hsn : ¬ (ds.superState.n < plan.superBatchesPerEpoch) := by omega
    simp only [planConfig] at hrc
    simp [datasetNext, planConfig, hn, hrc, superNext, hsn]

theorem C10_super_source_fetch_cap_witness :
    superNext (planConfig (EpochPlan.mk 2 5 5 2) (tagStream 5) (tagStream 5) 1
        (fun l _ => l)).super ⟨2, 7, true, 1⟩
      = (none, ⟨2, 7, true, 1⟩) :=
  (C10_super_source_fetch_cap (tagStream 5) (tagStream 5) 1 (fun l _ => l)
    (rfl : bigWigDatasetInit [(0, 10000)] 1000 2 (some 5) none
      = Except.ok ⟨2, 5, 5, 2⟩)).2.1
    ⟨2, 7, true, 1⟩ (by decide)

/-- C7 (amended): the super-batch buffer identity persists across the
epoch boundary - `__iter__` (and `reset_gpu`) leave the loaded buffers,
the allocation flag and the allocation count untouched, and once the
output buffer is allocated no fetch ever reallocates it.  However the
first `__next__` of a new epoch does NOT trigger a fresh fetch when a
super-batch from the previous epoch is still loaded: because `_offset` is
reset to `0` and the buffer handles persist, the refill condition of
lines 146-150 is false, so the first batch of the new epoch is sliced
from the PREVIOUS epoch leftover super-batch content, with the
collaborator fetch counter unchanged. -/
theorem C7_epoch_boundary_buffer {σ τ : Type} (cfg : DatasetConfig σ τ) :
    (∀ ds : DatasetState σ τ,
      (datasetIter (datasetResetGpu ds)).superBatchSequences = ds.superBatchSequences ∧
      (datasetIter (datasetResetGpu ds)).superBatchTargets = ds.superBatchTargets ∧
      (datasetIter (datasetResetGpu ds)).superState.allocated = ds.superState.allocated ∧
      (datasetIter (datasetResetGpu ds)).superState.allocs = ds.superState.allocs ∧
      (datasetIter (datasetResetGpu ds)).superState.fetches = ds.superState.fetches) ∧
    (∀ st : SuperState, st.allocated = true →
      (superNext cfg.super st).2.allocs = st.allocs ∧
      (superNext cfg.super st).2.allocated = true) ∧
    (∀ (ds : DatasetState σ τ) (s : List σ) (t : List τ),
      ds.n < cfg.batchesPerEpoch →
      ds.superBatchSequences = some s →
      ds.superBatchTargets = some t →
      ds.offset = 0 →
      cfg.batchSize ≤ cfg.super.batchSize →
      (datasetNext cfg ds).1 = some (s.take cfg.batchSize, t.take cfg.batchSize) ∧
      (datasetNext cfg ds).2.superState = ds.superState) := by
  refine ⟨fun ds => ⟨rfl, rfl, rfl, rfl, rfl⟩, ?_, ?_⟩
  · intro st hal
    unfold superNext
    by_cases hlt : st.n < cfg.super.batchesPerEpoch
    · rw [if_pos hlt]
      exact ⟨by simp [hal], rfl⟩
    · rw [if_neg hlt]
      exact ⟨rfl, hal⟩
  · intro ds s t hn hs ht hoff hBS
    have hrc : refillCondition cfg ds = false := by
      simp [refillCondition, hs, ht, hoff]
      omega
    have hview := datasetNext_slice_view cfg ds s t hn hs ht hrc
    refine ⟨?_, hview.2.2.2.2.2⟩
    rw [hview.1, hoff]
    simp [List.drop_zero]

theorem C7_epoch_boundary_buffer_witness :
    (datasetNext (planConfig (EpochPlan.mk 1 1 1 1) (tagStream 1) (tagStream 1) 1
        (fun l _ => l))
      (DatasetState.mk 0 0 (some [(9, 9)]) (some [(8, 8)]) ⟨0, 1, true, 1⟩)).1
      = some (([(9, 9)] : List (Nat × Nat)).take 1, ([(8, 8)] : List (Nat × Nat)).take 1) ∧
    (datasetNext (planConfig (EpochPlan.mk 1 1 1 1) (tagStream 1) (tagStream 1) 1
        (fun l _ => l))
      (DatasetState.mk 0 0 (some [(9, 9)]) (some [(8, 8)]) ⟨0, 1, true, 1⟩)).2.superState
      = SuperState.mk 0 1 true 1 :=
  (C7_epoch_boundary_buffer (planConfig (EpochPlan.mk 1 1 1 1) (tagStream 1) (tagStream 1) 1
      (fun l _ => l))).2.2
    (DatasetState.mk 0 0 (some [(9, 9)]) (some [(8, 8)]) ⟨0, 1, true, 1⟩)
    [(9, 9)] [(8, 8)] (by decide) rfl rfl rfl (by decide)

theorem C7_counterexample :
    (epochRunFrom (planConfig (EpochPlan.mk 2 2 1 1) (tagStream 2) (tagStream 2) 1
        (fun l _ => l)) initialDatasetState).2.superState.fetches = 1 ∧
    (datasetNext (planConfig (EpochPlan.mk 2 2 1 1) (tagStream 2) (tagStream 2) 1
        (fun l _ => l))
      (datasetIter (epochRunFrom (planConfig (EpochPlan.mk 2 2 1 1) (tagStream 2)
        (tagStream 2) 1 (fun l _ => l)) initialDatasetState).2)).2.superState.fetches = 1 ∧
    (datasetNext (planConfig (EpochPlan.mk 2 2 1 1) (tagStream 2) (tagStream 2) 1
        (fun l _ => l))
      (datasetIter (epochRunFrom (planConfig (EpochPlan.mk 2 2 1 1) (tagStream 2)
        (tagStream 2) 1 (fun l _ => l)) initialDatasetState).2)).1
      = some ([(0, 0), (0, 1)], [(0, 0), (0, 1)]) ∧
    tagStream 2 1 = [(1, 0), (1, 1)] := by
  refine ⟨by decide, by decide, by decide, by decide⟩

/-- C1 (amended): for a valid configuration whose `super_batch_size` is an
exact multiple of `batch_size` (and collaborators honoring the super-batch
row contract), iterating `BigWigDataset` for one epoch yields exactly
`batches_per_epoch` batches, each with exactly `batch_size` rows in both
the sequence and the signal output, and then terminates via the
end-of-sequence signal.  Without the divisibility condition the inner
fetch cap `ceil(batch_size * batches_per_epoch / super_batch_size)` can be
smaller than the `ceil(batches_per_epoch / floor(super_batch_size /
batch_size))` fetches the refill policy needs, and the epoch terminates
early (see the counterexample). -/
theorem C1_epoch_yield_count {regions : List (Nat × Nat)}
    {sequenceLength batchSize : Nat} {sOpt bpeOpt : Option Nat} {plan : EpochPlan}
    {σ τ : Type} (seqFetch : Nat → List σ) (tgtFetch : Nat → List τ)
    (movingAverageWindowSize : Nat) (smooth : List τ → Nat → List τ)
    (hinit : bigWigDatasetInit regions sequenceLength batchSize sOpt bpeOpt
      = Except.ok plan)
    (hB : 0 < batchSize)
    (hdiv : plan.superBatchSize % plan.batchSize = 0)
    (hcon : FetchContract
      (planConfig plan seqFetch tgtFetch movingAverageWindowSize smooth)) :
    (epochRunFrom (planConfig plan seqFetch tgtFetch movingAverageWindowSize smooth)
        initialDatasetState).1.length = plan.batchesPerEpoch ∧
    (∀ p ∈ (epochRunFrom (planConfig plan seqFetch tgtFetch movingAverageWindowSize smooth)
        initialDatasetState).1,
      p.1.length = plan.batchSize ∧ p.2.length = plan.batchSize) ∧
    (datasetNext (planConfig plan seqFetch tgtFetch movingAverageWindowSize smooth)
      (epochRunFrom (planConfig plan seqFetch tgtFetch movingAverageWindowSize smooth)
        initialDatasetState).2).1 = none := by
  obtain ⟨hb, hsb, hle, hbpe, hcap⟩ := bigWigDatasetInit_ok hinit
  have hBp : 0 < plan.batchSize := by omega
  have hlep : plan.batchSize ≤ plan.superBatchSize := by omega
  have hkey : plan.batchesPerEpoch
      ≤ plan.superBatchesPerEpoch * (plan.superBatchSize / plan.batchSize) := by
    rw [hcap, hb]
    have := bpe_le_ceil_mul plan.batchSize plan.superBatchSize plan.batchesPerEpoch
      hBp hdiv hlep
    rw [hb] at this
    exact this
  have hiter : datasetIter (initialDatasetState : DatasetState σ τ)
      = initialDatasetState := rfl
  have hspec := runEpoch_spec
    (planConfig plan seqFetch tgtFetch movingAverageWindowSize smooth)
    hBp hcon
    ((planConfig plan seqFetch tgtFetch movingAverageWindowSize smooth).batchesPerEpoch + 1)
    initialDatasetState 0
    (show (0 : Nat) = 0 * plan.batchSize by simp)
    (Nat.zero_le _)
    (Or.inl ⟨rfl, rfl⟩)
    (Nat.zero_le _)
    (by
      show plan.batchesPerEpoch - 0
        ≤ 0 + (plan.superBatchesPerEpoch - 0) * (plan.superBatchSize / plan.batchSize)
      simpa using hkey)
  rw [epochRunFrom, hiter]
  refine ⟨?_, ?_, ?_⟩
  · refine hspec.1.trans ?_
    show min (plan.batchesPerEpoch + 1) (plan.batchesPerEpoch - 0) = plan.batchesPerEpoch
    omega
  · exact hspec.2.1
  · have hfin2 : (runEpoch (planConfig plan seqFetch tgtFetch movingAverageWindowSize smooth)
        ((planConfig plan seqFetch tgtFetch movingAverageWindowSize
          smooth).batchesPerEpoch + 1) initialDatasetState).2.n
        = plan.batchesPerEpoch := by
      refine hspec.2.2.trans ?_
      show min (0 + (plan.batchesPerEpoch + 1)) plan.batchesPerEpoch = plan.batchesPerEpoch
      omega
    rw [datasetNext_exhausted _ _ (le_of_eq hfin2.symm)]

theorem C1_epoch_yield_count_witness :
    (epochRunFrom (planConfig (EpochPlan.mk 2 4 5 3) (tagStream 4) (tagStream 4) 1
        (fun l _ => l)) initialDatasetState).1.length = 5 :=
  (C1_epoch_yield_count (tagStream 4) (tagStream 4) 1 (fun l _ => l)
    (rfl : bigWigDatasetInit [(0, 10000)] 1000 2 (some 4) none = Except.ok ⟨2, 4, 5, 3⟩)
    (by decide) (by decide)
    (by
      intro k
      constructor <;>
        simp [planConfig, tagStream, postTarget, moving_average, pyOr])).1

theorem C1_counterexample :
    2 ≤ 5 ∧
    bigWigDatasetInit [(0, 10000)] 1000 2 (some 5) none = Except.ok ⟨2, 5, 5, 2⟩ ∧
    (epochRunFrom (planConfig (EpochPlan.mk 2 5 5 2) (tagStream 5) (tagStream 5) 1
        (fun l _ => l)) initialDatasetState).1.length = 4 ∧
    (4 : Nat) ≠ 5 :=
  ⟨by decide, rfl, by decide, by decide⟩

/-- C6 (amended): restarting an epoch (the reset operation followed by
`__iter__`) resets the cursor `{offset, batches_emitted}` to `{0, 0}` and
the inner per-epoch counter to `0` without discarding the persistent
super-batch storage (loaded buffers, allocation flag and allocation count
are untouched); and - when `super_batch_size` is an exact multiple of
`batch_size` and the collaborators honor the row contract - the new epoch
again produces exactly `batches_per_epoch` batches of `batch_size` rows
before exhaustion, from any consistent previous state.  Without the
divisibility condition a restarted epoch can again terminate early (see
the counterexample). -/
theorem C6_epoch_restart_repeatable {regions : List (Nat × Nat)}
    {sequenceLength batchSize : Nat} {sOpt bpeOpt : Option Nat} {plan : EpochPlan}
    {σ τ : Type} (seqFetch : Nat → List σ) (tgtFetch : Nat → List τ)
    (movingAverageWindowSize : Nat) (smooth : List τ → Nat → List τ)
    (hinit : bigWigDatasetInit regions sequenceLength batchSize sOpt bpeOpt
      = Except.ok plan)
    (hB : 0 < batchSize)
    (hdiv : plan.superBatchSize % plan.batchSize = 0)
    (hcon : FetchContract
      (planConfig plan seqFetch tgtFetch movingAverageWindowSize smooth)) :
    (∀ ds : DatasetState σ τ,
      (datasetIter (datasetResetGpu ds)).n = 0 ∧
      (datasetIter (datasetResetGpu ds)).offset = 0 ∧
      (datasetIter (datasetResetGpu ds)).superState.n = 0 ∧
      (datasetIter (datasetResetGpu ds)).superBatchSequences = ds.superBatchSequences ∧
      (datasetIter (datasetResetGpu ds)).superBatchTargets = ds.superBatchTargets ∧
      (datasetIter (datasetResetGpu ds)).superState.allocated = ds.superState.allocated ∧
      (datasetIter (datasetResetGpu ds)).superState.allocs = ds.superState.allocs) ∧
    (∀ ds : DatasetState σ τ,
      BufOk (planConfig plan seqFetch tgtFetch movingAverageWindowSize smooth) ds →
      (epochRunFrom (planConfig plan seqFetch tgtFetch movingAverageWindowSize smooth)
          (datasetResetGpu ds)).1.length = plan.batchesPerEpoch ∧
      (∀ p ∈ (epochRunFrom (planConfig plan seqFetch tgtFetch movingAverageWindowSize
          smooth) (datasetResetGpu ds)).1,
        p.1.length = plan.batchSize ∧ p.2.length = plan.batchSize) ∧
      (datasetNext (planConfig plan seqFetch tgtFetch movingAverageWindowSize smooth)
        (epochRunFrom (planConfig plan seqFetch tgtFetch movingAverageWindowSize smooth)
          (datasetResetGpu ds)).2).1 = none) := by
  obtain ⟨hb, hsb, hle, hbpe, hcap⟩ := bigWigDatasetInit_ok hinit
  have hBp : 0 < plan.batchSize := by omega
  have hlep : plan.batchSize ≤ plan.superBatchSize := by omega
  have hkey : plan.batchesPerEpoch
      ≤ plan.superBatchesPerEpoch * (plan.superBatchSize / plan.batchSize) := by
    rw [hcap, hb]
    have := bpe_le_ceil_mul plan.batchSize plan.superBatchSize plan.batchesPerEpoch
      hBp hdiv hlep
    rw [hb] at this
    exact this
  refine ⟨fun ds => ⟨rfl, rfl, rfl, rfl, rfl, rfl, rfl⟩, ?_⟩
  intro ds hbuf
  have hb0 : BufOk (planConfig plan seqFetch tgtFetch movingAverageWindowSize smooth)
      (datasetIter (datasetResetGpu ds)) := by
    rcases hbuf with ⟨hs, ht⟩ | ⟨s, t, hs, ht, hsl, htl⟩
    · exact Or.inl ⟨hs, ht⟩
    · exact Or.inr ⟨s, t, hs, ht, hsl, htl⟩
  have hspec := runEpoch_spec
    (planConfig plan seqFetch tgtFetch movingAverageWindowSize smooth)
    hBp hcon
    ((planConfig plan seqFetch tgtFetch movingAverageWindowSize smooth).batchesPerEpoch + 1)
    (datasetIter (datasetResetGpu ds)) 0
    (show (0 : Nat) = 0 * plan.batchSize by simp)
    (Nat.zero_le _)
    hb0
    (Nat.zero_le _)
    (by
      show plan.batchesPerEpoch - 0
        ≤ (if ds.superBatchSequences.isNone then 0
            else plan.superBatchSize / plan.batchSize - 0)
          + (plan.superBatchesPerEpoch - 0) * (plan.superBatchSize / plan.batchSize)
      rcases hbuf with ⟨hs, _⟩ | ⟨s, t, hs, ht, _, _⟩
      · rw [hs]
        simpa using hkey
      · rw [hs]
        simp only [Option.isNone_some, Bool.false_eq_true, if_false, Nat.sub_zero]
        have hkey2 := hkey
        generalize plan.superBatchSize / plan.batchSize = m at hkey2 ⊢
        omega)
  rw [epochRunFrom]
  refine ⟨?_, ?_, ?_⟩
  · refine hspec.1.trans ?_
    show min (plan.batchesPerEpoch + 1) (plan.batchesPerEpoch - 0) = plan.batchesPerEpoch
    omega
  · exact hspec.2.1
  · have hfin2 : (runEpoch (planConfig plan seqFetch tgtFetch movingAverageWindowSize smooth)
        ((planConfig plan seqFetch tgtFetch movingAverageWindowSize
          smooth).batchesPerEpoch + 1) (datasetIter (datasetResetGpu ds))).2.n
        = plan.batchesPerEpoch := by
      refine hspec.2.2.trans ?_
      show min (0 + (plan.batchesPerEpoch + 1)) plan.batchesPerEpoch = plan.batchesPerEpoch
      omega
    rw [datasetNext_exhausted _ _ (le_of_eq hfin2.symm)]

theorem C6_epoch_restart_repeatable_witness :
    (epochRunFrom (planConfig (EpochPlan.mk 2 6 5 2) (tagStream 6) (tagStream 6) 1
        (fun l _ => l)) (datasetResetGpu initialDatasetState)).1.length = 5 :=
  ((C6_epoch_restart_repeatable (tagStream 6) (tagStream 6) 1 (fun l _ => l)
    (rfl : bigWigDatasetInit [(0, 10000)] 1000 2 (some 6) none = Except.ok ⟨2, 6, 5, 2⟩)
    (by decide) (by decide)
    (by
      intro k
      constructor <;>
        simp [planConfig, tagStream, postTarget, moving_average, pyOr])).2
    initialDatasetState (Or.inl ⟨rfl, rfl⟩)).1

theorem C6_counterexample :
    bigWigDatasetInit [(0, 0)] 1 2 (some 3) (some 6) = Except.ok ⟨2, 3, 6, 4⟩ ∧
    (epochRunFrom (planConfig (EpochPlan.mk 2 3 6 4) (tagStream 3) (tagStream 3) 1
        (fun l _ => l))
      (epochRunFrom (planConfig (EpochPlan.mk 2 3 6 4) (tagStream 3) (tagStream 3) 1
        (fun l _ => l)) initialDatasetState).2).1.length = 5 ∧
    (5 : Nat) ≠ 6 :=
  ⟨rfl, by decide, by decide⟩

/-- Without a refill, `__next__` leaves the inner dataset state (and hence
the collaborator fetch position) untouched. -/
theorem datasetNext_no_refill_superState {σ τ : Type} (cfg : DatasetConfig σ τ)
    (ds : DatasetState σ τ) (hrc : refillCondition cfg ds = false) :
    (datasetNext cfg ds).2.superState = ds.superState := by
  by_cases hn : ds.n < cfg.batchesPerEpoch
  · simp [datasetNext, hn, hrc]
  · simp [datasetNext, hn]

/-- The batches of a fresh epoch are the expected slices, in order. -/
theorem epochRun_eq_expectedRun {σ τ : Type} (cfg : DatasetConfig σ τ)
    (hB : 0 < cfg.batchSize) (hBS : cfg.batchSize ≤ cfg.super.batchSize)
    (hbud : ∀ a, a * (cfg.super.batchSize / cfg.batchSize) < cfg.batchesPerEpoch →
      a < cfg.super.batchesPerEpoch) :
    (epochRunFrom cfg initialDatasetState).1
      = expectedRun cfg 0 cfg.batchesPerEpoch := by
  have hiter : datasetIter (initialDatasetState : DatasetState σ τ)
      = initialDatasetState := rfl
  have h0 : (initialDatasetState : DatasetState σ τ) = stateAfterFresh cfg 0 := rfl
  rw [epochRunFrom, hiter, h0,
    runEpoch_stateAfterFresh cfg hB hBS hbud (cfg.batchesPerEpoch + 1) 0 (Nat.zero_le _)]
  congr 1
  omega

/-- Batches `j * m, ..., j * m + m - 1` of a fresh epoch form block `j`. -/
theorem expectedRun_block {σ τ : Type} (cfg : DatasetConfig σ τ) (j : Nat)
    (hj : (j + 1) * (cfg.super.batchSize / cfg.batchSize) ≤ cfg.batchesPerEpoch) :
    ((expectedRun cfg 0 cfg.batchesPerEpoch).drop
        (j * (cfg.super.batchSize / cfg.batchSize))).take
      (cfg.super.batchSize / cfg.batchSize)
      = expectedRun cfg (j * (cfg.super.batchSize / cfg.batchSize))
          (cfg.super.batchSize / cfg.batchSize) := by
  have h1 : (j + 1) * (cfg.super.batchSize / cfg.batchSize)
      = j * (cfg.super.batchSize / cfg.batchSize)
        + cfg.super.batchSize / cfg.batchSize := by ring
  have e1 : cfg.batchesPerEpoch
      = j * (cfg.super.batchSize / cfg.batchSize)
        + (cfg.super.batchSize / cfg.batchSize
          + (cfg.batchesPerEpoch - (j + 1) * (cfg.super.batchSize / cfg.batchSize))) := by
    omega
  rw [e1, expectedRun_append cfg (j * (cfg.super.batchSize / cfg.batchSize)) 0 _,
    Nat.zero_add,
    List.drop_left' (expectedRun_length cfg 0 (j * (cfg.super.batchSize / cfg.batchSize))),
    expectedRun_append cfg (cfg.super.batchSize / cfg.batchSize)
      (j * (cfg.super.batchSize / cfg.batchSize)) _,
    List.take_left' (expectedRun_length cfg (j * (cfg.super.batchSize / cfg.batchSize))
      (cfg.super.batchSize / cfg.batchSize))]

/-- Joining one component of block `j` recovers the first `m * batch_size`
rows of the corresponding fetched super-batch. -/
theorem expectedRun_map_flatten {σ τ : Type} (cfg : DatasetConfig σ τ) (j : Nat)
    {α : Type} (f : List σ × List τ → List α) (g : Nat → List α)
    (hf : ∀ t, f (expectedBatch cfg t)
      = sliceStream cfg.batchSize g (cfg.super.batchSize / cfg.batchSize) t)
    (hm : 0 < cfg.super.batchSize / cfg.batchSize)
    (hlen : cfg.super.batchSize / cfg.batchSize * cfg.batchSize ≤ (g j).length) :
    ((expectedRun cfg (j * (cfg.super.batchSize / cfg.batchSize))
        (cfg.super.batchSize / cfg.batchSize)).map f).flatten
      = (g j).take (cfg.super.batchSize / cfg.batchSize * cfg.batchSize) := by
  rw [expectedRun_eq_map cfg _ _, List.map_map]
  have hfun : (f ∘ fun i => expectedBatch cfg
      (j * (cfg.super.batchSize / cfg.batchSize) + i))
      = fun i => sliceStream cfg.batchSize g (cfg.super.batchSize / cfg.batchSize)
          (j * (cfg.super.batchSize / cfg.batchSize) + i) := by
    funext i
    exact hf _
  rw [hfun, flatten_block cfg.batchSize _ j g hm hlen]

/-- When the super-batch size splits exactly and the batch count covers
whole blocks, joining one component of the whole epoch recovers the
concatenation of all fetched super-batches. -/
theorem expectedRun_map_flatten_full {σ τ : Type} (cfg : DatasetConfig σ τ)
    {α : Type} (f : List σ × List τ → List α) (g : Nat → List α)
    (hf : ∀ t, f (expectedBatch cfg t)
      = sliceStream cfg.batchSize g (cfg.super.batchSize / cfg.batchSize) t)
    (hm : 0 < cfg.super.batchSize / cfg.batchSize)
    (hlen : ∀ j, (g j).length
      = cfg.super.batchSize / cfg.batchSize * cfg.batchSize)
    (q : Nat) (hq : cfg.batchesPerEpoch = q * (cfg.super.batchSize / cfg.batchSize)) :
    ((expectedRun cfg 0 cfg.batchesPerEpoch).map f).flatten
      = ((List.range q).map g).flatten := by
  rw [hq, expectedRun_eq_map cfg _ 0, List.map_map]
  have hfun : (f ∘ fun i => expectedBatch cfg (0 + i))
      = fun t => sliceStream cfg.batchSize g (cfg.super.batchSize / cfg.batchSize) t := by
    funext i
    rw [Function.comp_apply, Nat.zero_add]
    exact hf i
  rw [hfun]
  exact flatten_slices_range cfg.batchSize _ g hm hlen q

/-- C2 (amended): a refill is triggered exactly when no super-batch is
loaded or `offset + batch_size > super_batch_size` (the collaborator fetch
counter advances precisely under that condition).  Row utilization, for an
epoch whose inner fetch budget suffices (hypothesis `hbud`; by C1/C10 the
cap can otherwise truncate the epoch): every fully produced block `j`
yields exactly the first `floor(S / B) * B` rows of fetched super-batch
`j`, in order and each exactly once, so each refill after the first
discards exactly `S mod B` trailing rows of the previous super-batch; and
when `S mod B = 0` AND `floor(S / B)` divides `batches_per_epoch`, the
concatenation of all yielded batches equals the concatenation of all
fetched super-batches (no loss).  The original unconditional no-loss claim
fails at epoch end when `floor(S / B)` does not divide
`batches_per_epoch` (see the counterexample). -/
theorem C2_refill_policy_row_utilization {regions : List (Nat × Nat)}
    {sequenceLength batchSize : Nat} {sOpt bpeOpt : Option Nat} {plan : EpochPlan}
    {σ τ : Type} (seqFetch : Nat → List σ) (tgtFetch : Nat → List τ)
    (movingAverageWindowSize : Nat) (smooth : List τ → Nat → List τ)
    (hinit : bigWigDatasetInit regions sequenceLength batchSize sOpt bpeOpt
      = Except.ok plan)
    (hB : 0 < batchSize)
    (hcon : FetchContract
      (planConfig plan seqFetch tgtFetch movingAverageWindowSize smooth))
    (hbud : ∀ a, a * (plan.superBatchSize / plan.batchSize) < plan.batchesPerEpoch →
      a < plan.superBatchesPerEpoch) :
    (∀ ds : DatasetState σ τ, ds.n < plan.batchesPerEpoch →
      ds.superState.n < plan.superBatchesPerEpoch →
      (((datasetNext (planConfig plan seqFetch tgtFetch movingAverageWindowSize smooth)
          ds).2.superState.fetches = ds.superState.fetches + 1) ↔
        refillCondition (planConfig plan seqFetch tgtFetch movingAverageWindowSize smooth)
          ds = true)) ∧
    (∀ j, (j + 1) * (plan.superBatchSize / plan.batchSize) ≤ plan.batchesPerEpoch →
      ((((epochRunFrom (planConfig plan seqFetch tgtFetch movingAverageWindowSize smooth)
            initialDatasetState).1.drop
          (j * (plan.superBatchSize / plan.batchSize))).take
            (plan.superBatchSize / plan.batchSize)).map Prod.fst).flatten
        = (seqFetch j).take (plan.superBatchSize / plan.batchSize * plan.batchSize) ∧
      ((((epochRunFrom (planConfig plan seqFetch tgtFetch movingAverageWindowSize smooth)
            initialDatasetState).1.drop
          (j * (plan.superBatchSize / plan.batchSize))).take
            (plan.superBatchSize / plan.batchSize)).map Prod.snd).flatten
        = (postTarget (planConfig plan seqFetch tgtFetch movingAverageWindowSize
            smooth).super j).take
            (plan.superBatchSize / plan.batchSize * plan.batchSize) ∧
      (seqFetch j).length - plan.superBatchSize / plan.batchSize * plan.batchSize
        = plan.superBatchSize % plan.batchSize) ∧
    (plan.superBatchSize % plan.batchSize = 0 →
      (plan.superBatchSize / plan.batchSize) ∣ plan.batchesPerEpoch →
      ((epochRunFrom (planConfig plan seqFetch tgtFetch movingAverageWindowSize smooth)
          initialDatasetState).1.map Prod.fst).flatten
        = ((List.range
            (plan.batchesPerEpoch / (plan.superBatchSize / plan.batchSize))).map
            seqFetch).flatten ∧
      ((epochRunFrom (planConfig plan seqFetch tgtFetch movingAverageWindowSize smooth)
          initialDatasetState).1.map Prod.snd).flatten
        = ((List.range
            (plan.batchesPerEpoch / (plan.superBatchSize / plan.batchSize))).map
            (postTarget (planConfig plan seqFetch tgtFetch movingAverageWindowSize
              smooth).super)).flatten) := by
  obtain ⟨hb, hsb, hle, hbpe, hcap⟩ := bigWigDatasetInit_ok hinit
  have hBp : 0 < plan.batchSize := by omega
  have hlep : plan.batchSize ≤ plan.superBatchSize := by omega
  have hm : 0 < plan.superBatchSize / plan.batchSize :=
    (Nat.one_le_div_iff hBp).mpr hlep
  have hrun : (epochRunFrom
      (planConfig plan seqFetch tgtFetch movingAverageWindowSize smooth)
      initialDatasetState).1
      = expectedRun (planConfig plan seqFetch tgtFetch movingAverageWindowSize smooth)
          0 plan.batchesPerEpoch :=
    epochRun_eq_expectedRun _ hBp hlep hbud
  refine ⟨?_, ?_, ?_⟩
  · -- refill trigger characterization
    intro ds hn hsn
    constructor
    · intro hfet
      by_contra hrc
      have hrcf : refillCondition
          (planConfig plan seqFetch tgtFetch movingAverageWindowSize smooth) ds
          = false := by
        simpa using hrc
      have hsame := datasetNext_no_refill_superState _ ds hrcf
      rw [hsame] at hfet
      omega
    · intro hrc
      rw [datasetNext_refill _ ds hn hrc hsn]
  · -- per-block utilization and discard count
    intro j hj
    have hlenS : (seqFetch j).length = plan.superBatchSize := (hcon j).1
    have hlenT : (postTarget (planConfig plan seqFetch tgtFetch movingAverageWindowSize
        smooth).super j).length = plan.superBatchSize := (hcon j).2
    have hml : plan.superBatchSize / plan.batchSize * plan.batchSize
        ≤ plan.superBatchSize := Nat.div_mul_le_self _ _
    have hblk : ((expectedRun (planConfig plan seqFetch tgtFetch movingAverageWindowSize
          smooth) 0 plan.batchesPerEpoch).drop
        (j * (plan.superBatchSize / plan.batchSize))).take
          (plan.superBatchSize / plan.batchSize)
        = expectedRun (planConfig plan seqFetch tgtFetch movingAverageWindowSize smooth)
            (j * (plan.superBatchSize / plan.batchSize))
            (plan.superBatchSize / plan.batchSize) :=
      expectedRun_block (planConfig plan seqFetch tgtFetch movingAverageWindowSize smooth)
        j hj
    refine ⟨?_, ?_, ?_⟩
    · rw [hrun, hblk]
      exact expectedRun_map_flatten
        (planConfig plan seqFetch tgtFetch movingAverageWindowSize smooth)
        j Prod.fst seqFetch (fun _ => rfl) hm
        (by
          show plan.superBatchSize / plan.batchSize * plan.batchSize
            ≤ (seqFetch j).length
          rw [hlenS]
          exact hml)
    · rw [hrun, hblk]
      exact expectedRun_map_flatten
        (planConfig plan seqFetch tgtFetch movingAverageWindowSize smooth)
        j Prod.snd
        (postTarget (planConfig plan seqFetch tgtFetch movingAverageWindowSize smooth).super)
        (fun _ => rfl) hm
        (by
          show plan.superBatchSize / plan.batchSize * plan.batchSize
            ≤ (postTarget (planConfig plan seqFetch tgtFetch movingAverageWindowSize
                smooth).super j).length
          rw [hlenT]
          exact hml)
    · have hdm := Nat.div_add_mod plan.superBatchSize plan.batchSize
      have hcm : plan.batchSize * (plan.superBatchSize / plan.batchSize)
          = plan.superBatchSize / plan.batchSize * plan.batchSize :=
        Nat.mul_comm _ _
      omega
  · -- aligned no-loss
    intro hmod hdvd
    have hS : plan.superBatchSize / plan.batchSize * plan.batchSize
        = plan.superBatchSize :=
      Nat.div_mul_cancel (Nat.dvd_of_mod_eq_zero hmod)
    have hq : plan.batchesPerEpoch
        = plan.batchesPerEpoch / (plan.superBatchSize / plan.batchSize)
          * (plan.superBatchSize / plan.batchSize) :=
      (Nat.div_mul_cancel hdvd).symm
    constructor
    · rw [hrun]
      exact expectedRun_map_flatten_full
        (planConfig plan seqFetch tgtFetch movingAverageWindowSize smooth)
        Prod.fst seqFetch (fun _ => rfl) hm
        (fun j => by
          show (seqFetch j).length
            = plan.superBatchSize / plan.batchSize * plan.batchSize
          rw [hS]
          exact (hcon j).1)
        _ hq
    · rw [hrun]
      exact expectedRun_map_flatten_full
        (planConfig plan seqFetch tgtFetch movingAverageWindowSize smooth)
        Prod.snd
        (postTarget (planConfig plan seqFetch tgtFetch movingAverageWindowSize smooth).super)
        (fun _ => rfl) hm
        (fun j => by
          show (postTarget (planConfig plan seqFetch tgtFetch movingAverageWindowSize
              smooth).super j).length
            = plan.superBatchSize / plan.batchSize * plan.batchSize
          rw [hS]
          exact (hcon j).2)
        _ hq

theorem C2_refill_policy_row_utilization_witness :
    ((epochRunFrom (planConfig (EpochPlan.mk 2 4 4 2) (tagStream 4) (tagStream 4) 1
        (fun l _ => l)) initialDatasetState).1.map Prod.fst).flatten
      = ((List.range (4 / (4 / 2))).map (tagStream 4)).flatten :=
  ((C2_refill_policy_row_utilization (tagStream 4) (tagStream 4) 1 (fun l _ => l)
    (rfl : bigWigDatasetInit [(0, 0)] 1 2 (some 4) (some 4) = Except.ok ⟨2, 4, 4, 2⟩)
    (by decide)
    (by
      intro k
      constructor <;>
        simp [planConfig, tagStream, postTarget, moving_average, pyOr])
    (by
      intro a ha
      have ha2 : a * 2 < 4 := ha
      show a < 2
      omega)).2.2 (by decide) (by decide)).1

theorem C2_counterexample :
    (4 % 2 = 0) ∧
    bigWigDatasetInit [(0, 0)] 1 2 (some 4) (some 3) = Except.ok ⟨2, 4, 3, 2⟩ ∧
    (epochRunFrom (planConfig (EpochPlan.mk 2 4 3 2) (tagStream 4) (tagStream 4) 1
        (fun l _ => l)) initialDatasetState).2.superState.fetches = 2 ∧
    ((1, 2) : Nat × Nat) ∈ tagStream 4 1 ∧
    List.count ((1, 2) : Nat × Nat)
      (((epochRunFrom (planConfig (EpochPlan.mk 2 4 3 2) (tagStream 4) (tagStream 4) 1
          (fun l _ => l)) initialDatasetState).1.map Prod.fst).flatten) = 0 :=
  ⟨by decide, rfl, by decide, by decide, by decide⟩

end BigWigLoader
